import Mathlib

/-
  Shallow embedding of the RAG pipeline of the Ylanov/backend-api repository:
  app/services/rag.py, app/api/assistant.py and app/api/documents.py.
  External effects (the SQL queries, the redis client, the sentence-transformer
  models, the upstream LLM stream) are modelled as explicit inputs; everything
  the Python functions themselves compute is translated directly.
-/

/-- Python str.strip() i.e. removal of leading and trailing whitespace,
    modelled on the character list of the string. -/
def pyStrip (s : String) : String :=
  String.mk (List.rdropWhile Char.isWhitespace (s.data.dropWhile Char.isWhitespace))

/-- Python str.lower(), modelled characterwise. -/
def pyLower (s : String) : String :=
  String.mk (s.data.map Char.toLower)

/-- Python text.strip().lower() as performed by rag.py _get_cache_key. -/
def normalizeQuestion (s : String) : String := pyLower (pyStrip s)

/-- rag.py _get_cache_key (lines 99-102): the sha256 hex digest of the
    normalized question, prefixed with a fixed namespace tag. hashlib.sha256
    is an external deterministic function, modelled as the parameter h. -/
def _get_cache_key (h : String → String) (text : String) : String :=
  "rag_cache:" ++ h (normalizeQuestion text)

/-- The redis string store, modelled as an association list (newest first on
    fresh keys); redis SET overwrites the value of an existing key in place. -/
def cacheSet (store : List (String × String)) (key val : String) :
    List (String × String) :=
  if store.any (fun p => p.1 == key) then
    store.map (fun p => if p.1 == key then (key, val) else p)
  else (key, val) :: store

/-- Redis GET on the association-list model of the store. -/
def cacheGet (store : List (String × String)) (key : String) : Option String :=
  (store.find? (fun p => p.1 == key)).map Prod.snd

/-- rag.py get_cached_answer (lines 105-107). -/
def get_cached_answer (h : String → String) (store : List (String × String))
    (question : String) : Option String :=
  cacheGet store (_get_cache_key h question)

/-- rag.py set_cached_answer (lines 110-113); the ttl only bounds staleness
    and has no effect on the value stored. -/
def set_cached_answer (h : String → String) (store : List (String × String))
    (question answer : String) : List (String × String) :=
  cacheSet store (_get_cache_key h question) answer

/-- Modelled from the spec: the DocumentChunk ORM model itself is not under
    src/ (only app/services/rag.py imports it from app.models). The fields
    follow spec section 3 "Chunk" and the constructor call in process_document:
    owning document id, ordinal index, cleaned text, embedding vector,
    1-based page number. id is the DB-assigned primary key. -/
structure DocumentChunk where
  id : Nat
  document_id : Nat
  chunk_index : Nat
  content : String
  embedding : List ℚ
  page_number : Int
deriving DecidableEq

/-- A langchain Document as produced by PyPDFLoader / Docx2txtLoader and by
    the splitter: the page text together with the metadata page integer
    (PyPDFLoader stores the 0-based page index there). -/
structure RawDoc where
  page_content : String
  page : Int
deriving DecidableEq

/-- Python chunk.page_content.replace chr 0 with the empty string
    (rag.py line 148): removal of every null character. -/
def cleanText (s : String) : String :=
  String.mk (s.data.filter (fun c => c != Char.ofNat 0))

/-- The chunk loop of process_document (rag.py lines 146-167): enumerate the
    split chunks starting at counter i, clean each text, skip texts shorter
    than 50 characters, embed (an embedding failure aborts the whole run, via
    Except), and otherwise build the DocumentChunk row with chunk_index = the
    enumerate counter and page_number = metadata page + 1 (the page is always
    an int in the model, so the isinstance guard always fires). id is the
    DB-assigned key, 0 before insert. -/
def buildChunks (embed : String → Except Unit (List ℚ)) (docId : Nat) :
    Nat → List RawDoc → Except Unit (List DocumentChunk)
  | _, [] => Except.ok []
  | i, c :: rest =>
    let clean := cleanText c.page_content
    if clean.length < 50 then buildChunks embed docId (i + 1) rest
    else
      match embed clean with
      | Except.error e => Except.error e
      | Except.ok v =>
        match buildChunks embed docId (i + 1) rest with
        | Except.error e => Except.error e
        | Except.ok tail =>
          Except.ok ({ id := 0, document_id := docId, chunk_index := i,
                       content := clean, embedding := v,
                       page_number := c.page + 1 } :: tail)

/-- The loader branch of process_document (rag.py lines 122-132): the pdf
    branch keeps the loader's 0-based metadata pages, the docx branch
    overwrites every loaded document's metadata page with 1. -/
def adjustPages (isPdf : Bool) (l : List RawDoc) : List RawDoc :=
  if isPdf then l else l.map (fun d => { d with page := 1 })

/-- The try-block of process_document (rag.py lines 120-173): load (the
    loader's outcome is the input loadResult), adjust pages by format, return
    early on empty loads, split (the RecursiveCharacterTextSplitter is
    external, modelled as the possibly-failing input split), then run the
    chunk loop. Any Except.error models a raised exception inside the try. -/
def processDocumentBody (isPdf : Bool) (loadResult : Except Unit (List RawDoc))
    (split : List RawDoc → Except Unit (List RawDoc))
    (embed : String → Except Unit (List ℚ)) (docId : Nat) :
    Except Unit (List DocumentChunk) :=
  match loadResult with
  | Except.error e => Except.error e
  | Except.ok rawDocs =>
    let raw := adjustPages isPdf rawDocs
    if raw.isEmpty then Except.ok []
    else
      match split raw with
      | Except.error e => Except.error e
      | Except.ok chunks => buildChunks embed docId 0 chunks

/-- rag.py process_document (lines 118-176): the whole body runs inside one
    try/except whose handler only logs, and the single db.add_all plus commit
    at the end (lines 169-171) writes the computed rows in one batch; the
    returned list is exactly the set of chunk rows committed by the run, and
    no exception escapes to the caller. -/
def process_document (isPdf : Bool) (loadResult : Except Unit (List RawDoc))
    (split : List RawDoc → Except Unit (List RawDoc))
    (embed : String → Except Unit (List ℚ)) (docId : Nat) : List DocumentChunk :=
  match processDocumentBody isPdf loadResult split embed docId with
  | Except.ok l => l
  | Except.error _ => []

/-- The scored list of rerank_results: zip(chunks, scores) sorted by
    descending score (Python sorted with reverse=True is a stable sort),
    filtered by score > -8.0, then cut to the first top_k. The cross-encoder
    scores are modelled as rationals produced by the per-pair function
    predict, one score per (query, content) pair. -/
def rerankScoredKept (predict : String → String → ℚ) (query : String)
    (chunks : List DocumentChunk) (top_k : Nat) : List (DocumentChunk × ℚ) :=
  (((chunks.zip (chunks.map (fun c => predict query c.content))).mergeSort
      (fun a b => decide (b.2 ≤ a.2))).filter
        (fun p => decide (-8 < p.2))).take top_k

/-- rag.py rerank_results (lines 67-94); the second component records whether
    reranker_model.predict was invoked. -/
def rerank_results (predict : String → String → ℚ) (query : String)
    (chunks : List DocumentChunk) (top_k : Nat) : List DocumentChunk × Bool :=
  if chunks.isEmpty then ([], false)
  else ((rerankScoredKept predict query chunks top_k).map Prod.fst, true)

/-- One step of the dict-based dedup of search_related_chunks (rag.py lines
    202-207): assigning to an existing key keeps its position and takes the
    new value, a fresh key is appended at the end (Python dicts preserve
    insertion order). -/
def dedupInsert (acc : List DocumentChunk) (c : DocumentChunk) :
    List DocumentChunk :=
  if acc.any (fun x => x.id == c.id) then
    acc.map (fun x => if x.id == c.id then c else x)
  else acc ++ [c]

/-- The merged candidate list of search_related_chunks: vector results first,
    then keyword results, deduplicated by chunk id. -/
def dedupCandidates (vectorResults keywordResults : List DocumentChunk) :
    List DocumentChunk :=
  (vectorResults ++ keywordResults).foldl dedupInsert []

/-- rag.py search_related_chunks (lines 179-215). The two SQL channels and
    the query embedding are external; their result rows (already capped at
    limit * 4 by the queries) enter as vectorResults and keywordResults.
    The second component records whether the reranker model ran. -/
def search_related_chunks (predict : String → String → ℚ) (query : String)
    (vectorResults keywordResults : List DocumentChunk) (limit : Nat) :
    List DocumentChunk × Bool :=
  let candidates := dedupCandidates vectorResults keywordResults
  if candidates.isEmpty then ([], false)
  else rerank_results predict query candidates limit

/-- One event of the upstream chat.astream iteration inside
    generate_answer_stream (rag.py lines 235-236): either a content chunk or
    a connection failure / timeout raised mid-iteration. The end of the event
    list is a normal end of the stream. -/
inductive LLMEvent where
  | chunk (s : String)
  | connError
deriving DecidableEq

/-- Outcome of one run of assistant.py response_generator: the fragments it
    yielded, whether an exception propagated out of it, and the
    set_cached_answer call it performed (question, full answer), if any. -/
structure GenRunResult where
  fragments : List String
  raised : Bool
  cacheWrite : Option (String × String)
deriving DecidableEq

/-- The conditional cache write at assistant.py lines 82-84: cache the
    accumulated answer only when len(full_answer) > 20. -/
def mkWrite (question answer : String) : Option (String × String) :=
  if 20 < answer.length then some (question, answer) else none

/-- assistant.py response_generator (lines 76-86) consuming rag.py
    generate_answer_stream (lines 218-236). Neither function has a
    try/except, so a failure raised by the upstream iteration propagates to
    the consumer of the stream (raised = true) and skips the cache write; on
    normal completion the accumulated full_answer is cached iff its length
    exceeds 20. acc is the full_answer accumulator. -/
def respGenGo (question acc : String) : List LLMEvent → GenRunResult
  | [] => { fragments := [], raised := false, cacheWrite := mkWrite question acc }
  | LLMEvent.chunk s :: rest =>
    let r := respGenGo question (acc ++ s) rest
    { r with fragments := s :: r.fragments }
  | LLMEvent.connError :: _ => { fragments := [], raised := true, cacheWrite := none }

/-- The answer stream as returned to the StreamingResponse consumer. -/
def response_generator (question : String) (events : List LLMEvent) :
    GenRunResult :=
  respGenGo question "" events

/-- Applies the cache write (if any) of a finished generator run to the
    redis store. -/
def applyCacheWrite (h : String → String) (store : List (String × String))
    (r : GenRunResult) : List (String × String) :=
  match r.cacheWrite with
  | some (q, a) => set_cached_answer h store q a
  | none => store

/-- The fixed no-context message of assistant.py line 57. -/
def noInfoMessage : String := "В базе знаний не найдено подходящей информации."

/-- Observable outcome of one call of the /assistant/ask endpoint: HTTP
    status, the streamed fragments, whether the stream raised, and which
    pipeline stages ran. -/
structure AskResult where
  status : Nat
  fragments : List String
  raised : Bool
  retrievalInvoked : Bool
  rerankInvoked : Bool
  generationInvoked : Bool
deriving DecidableEq

/-- Python truthiness of the Optional[str] returned by get_cached_answer:
    None and the empty string are falsy. -/
def pyTruthy : Option String → Bool
  | none => false
  | some s => !s.data.isEmpty

/-- Steps 2-4 of ask_assistant_stream (assistant.py lines 52-86): search,
    the fixed message on an empty result, otherwise streaming generation
    followed by the conditional cache write. -/
def askSearchBranch (h : String → String) (predict : String → String → ℚ)
    (store : List (String × String)) (question : String)
    (vectorResults keywordResults : List DocumentChunk)
    (llmEvents : List LLMEvent) : AskResult × List (String × String) :=
  let sr := search_related_chunks predict question vectorResults keywordResults 5
  if sr.1.isEmpty then
    ({ status := 200, fragments := [noInfoMessage], raised := false,
       retrievalInvoked := true, rerankInvoked := sr.2,
       generationInvoked := false }, store)
  else
    let r := response_generator question llmEvents
    ({ status := 200, fragments := r.fragments, raised := r.raised,
       retrievalInvoked := true, rerankInvoked := sr.2,
       generationInvoked := true }, applyCacheWrite h store r)

/-- assistant.py ask_assistant_stream (lines 35-86): strip the question, 400
    on empty, serve a truthy cached value as the single fragment of the
    response, otherwise run the search branch. userId is the authenticated
    current_pyro, used by the code only as an auth guard, so the model keeps
    it as an (unused) argument. -/
def ask_assistant_stream (h : String → String) (predict : String → String → ℚ)
    (store : List (String × String)) (userId : Nat) (rawQuestion : String)
    (vectorResults keywordResults : List DocumentChunk)
    (llmEvents : List LLMEvent) : AskResult × List (String × String) :=
  let question := pyStrip rawQuestion
  if question = "" then
    ({ status := 400, fragments := [], raised := false,
       retrievalInvoked := false, rerankInvoked := false,
       generationInvoked := false }, store)
  else
    match get_cached_answer h store question with
    | some cached =>
      if cached.data.isEmpty then
        askSearchBranch h predict store question vectorResults keywordResults llmEvents
      else
        ({ status := 200, fragments := [cached], raised := false,
           retrievalInvoked := false, rerankInvoked := false,
           generationInvoked := false }, store)
    | none =>
      askSearchBranch h predict store question vectorResults keywordResults llmEvents

/-- The document and chunk tables, as far as delete_document observes them. -/
structure StoreState where
  documents : List Nat
  chunks : List DocumentChunk
deriving DecidableEq

/-- Modelled from the spec: the document_chunks table and its foreign key are
    not under src/. Spec section 3 ("deleted en masse when the owning
    document is deleted (cascade)") and the comment at documents.py lines
    190-192 fix the foreign key as document_id referencing documents.id with
    ondelete CASCADE: deleting a document row removes every chunk row
    carrying its id. -/
def cascadeDeleteChunks (chunks : List DocumentChunk) (docId : Nat) :
    List DocumentChunk :=
  chunks.filter (fun c => !(c.document_id == docId))

/-- documents.py delete_document (lines 174-194): 404 when the document does
    not exist, otherwise the document row is deleted and the DB cascade
    removes its chunks. -/
def delete_document (st : StoreState) (docId : Nat) : Except Nat StoreState :=
  if st.documents.contains docId then
    Except.ok { documents := st.documents.filter (fun i => !(i == docId)),
                chunks := cascadeDeleteChunks st.chunks docId }
  else Except.error 404

/-- A text of 65 characters, above the minimum chunk length, used by the
    concrete evaluations below. -/
def longText : String :=
  "The quick brown fox jumps over the lazy dog near the river bank."

/-- A text below the 50-character minimum chunk length. -/
def shortText : String := "too short"

/-- Sample question used by the concrete instantiations below. -/
def sampleQ : String := "Каковы требования к хранению изделий?"

/-- The normalization example of the spec, original casing. -/
def questionA : String := "What is X?"

/-- The normalization example of the spec, padded and lowercased. -/
def questionB : String := "  what is x?  "

/-- The identity taken as the concrete stand-in for the external hash in
    witnesses (any deterministic function works for the key lemmas). -/
def idHash : String → String := fun s => s

/-- A concrete cross-encoder score function assigning score 0 to every pair. -/
def zeroPredict : String → String → ℚ := fun _ _ => 0

-- ### helper lemmas: string concatenation and String.join

theorem strFoldlAppend (l : List String) (a b : String) :
    l.foldl (fun r s => r ++ s) (a ++ b) = a ++ l.foldl (fun r s => r ++ s) b := by
  induction l generalizing b with
  | nil => rfl
  | cons c t ih =>
    simp only [List.foldl_cons]
    rw [String.append_assoc, ih]

theorem joinCons (s : String) (l : List String) :
    String.join (s :: l) = s ++ String.join l := by
  show List.foldl (fun r t => r ++ t) "" (s :: l) = s ++ String.join l
  simp only [List.foldl_cons, String.empty_append]
  calc List.foldl (fun r t => r ++ t) s l
      = List.foldl (fun r t => r ++ t) (s ++ "") l := by rw [String.append_empty]
    _ = s ++ String.join l := strFoldlAppend l s ""

-- ### helper lemmas: the response generator

theorem respGenGo_fail (q : String) (frags : List String) :
    ∀ (acc : String) (rest : List LLMEvent),
      respGenGo q acc (frags.map LLMEvent.chunk ++ LLMEvent.connError :: rest) =
        { fragments := frags, raised := true, cacheWrite := none } := by
  induction frags with
  | nil => intro acc rest; rfl
  | cons s t ih =>
    intro acc rest
    simp only [List.map_cons, List.cons_append, respGenGo, List.append_eq, ih]

theorem respGenGo_ok (q : String) (frags : List String) :
    ∀ (acc : String),
      respGenGo q acc (frags.map LLMEvent.chunk) =
        { fragments := frags, raised := false,
          cacheWrite := mkWrite q (acc ++ String.join frags) } := by
  induction frags with
  | nil =>
    intro acc
    simp only [List.map_nil, respGenGo, String.join, List.foldl_nil,
      String.append_empty]
  | cons s t ih =>
    intro acc
    simp only [List.map_cons, respGenGo, ih, joinCons, String.append_assoc]

theorem respGenGo_shape (q : String) (events : List LLMEvent) :
    ∀ (acc : String),
      ((respGenGo q acc events).raised = true ∧
        (respGenGo q acc events).cacheWrite = none) ∨
      ((respGenGo q acc events).raised = false ∧
        (respGenGo q acc events).cacheWrite =
          mkWrite q (acc ++ String.join (respGenGo q acc events).fragments)) := by
  induction events with
  | nil =>
    intro acc
    right
    refine ⟨rfl, ?_⟩
    simp only [respGenGo, String.join, List.foldl_nil, String.append_empty]
  | cons e rest ih =>
    intro acc
    cases e with
    | chunk s =>
      rcases ih (acc ++ s) with h | h
      · left; simpa only [respGenGo] using h
      · right
        refine ⟨h.1, ?_⟩
        show (respGenGo q (acc ++ s) rest).cacheWrite =
          mkWrite q (acc ++ String.join (s :: (respGenGo q (acc ++ s) rest).fragments))
        rw [h.2, joinCons, String.append_assoc]
    | connError => left; exact ⟨rfl, rfl⟩

-- ### C1

/-- C1: counterexample. The claim states that a run in which the upstream LLM
    call fails yields exactly one human-readable error fragment and terminates
    normally. On the code, a connection failure raised on the first iteration
    of chat.astream propagates out of the stream (raised = true) and the
    stream has yielded zero fragments, not one. -/
theorem C1_counterexample :
    (response_generator sampleQ [LLMEvent.connError]).raised = true ∧
    (response_generator sampleQ [LLMEvent.connError]).fragments = [] ∧
    ¬ ((response_generator sampleQ [LLMEvent.connError]).raised = false ∧
       (response_generator sampleQ [LLMEvent.connError]).fragments.length = 1) := by
  decide

/-- C1 (amended): if the upstream LLM call fails during answer generation,
    the exception propagates past the stream's consumer (the stream
    terminates abnormally rather than yielding an error fragment): the
    consumer sees exactly the fragments produced before the failure, and no
    cache write occurs afterward. -/
theorem C1_amended_stream_failure (q : String) (frags : List String)
    (rest : List LLMEvent) :
    response_generator q (frags.map LLMEvent.chunk ++ LLMEvent.connError :: rest) =
      { fragments := frags, raised := true, cacheWrite := none } :=
  respGenGo_fail q frags "" rest

-- ### C8

/-- C8: a cache write happens only on a run whose stream completed in full
    (raised = false), it stores exactly the concatenation of all yielded
    fragments under the asked question, and only when that concatenation is
    longer than 20 characters; conversely a completed run whose final answer
    is at or below 20 characters leaves the redis store untouched, so the
    short answer is not retrievable afterwards. -/
theorem C8_cache_write_policy (h : String → String) (q : String)
    (events : List LLMEvent) (store : List (String × String)) :
    (∀ qw aw, (response_generator q events).cacheWrite = some (qw, aw) →
      (response_generator q events).raised = false ∧ qw = q ∧
      aw = String.join (response_generator q events).fragments ∧
      20 < aw.length) ∧
    ((response_generator q events).raised = false →
      (String.join (response_generator q events).fragments).length ≤ 20 →
      (response_generator q events).cacheWrite = none ∧
      applyCacheWrite h store (response_generator q events) = store) := by
  rw [show response_generator q events = respGenGo q "" events from rfl]
  have hs := respGenGo_shape q events ""
  rcases hs with ⟨hr, hw⟩ | ⟨hr, hw⟩
  · refine ⟨?_, ?_⟩
    · intro qw aw hsome
      rw [hw] at hsome
      exact Option.noConfusion hsome
    · intro hfalse
      rw [hr] at hfalse
      exact Bool.noConfusion hfalse
  · rw [String.empty_append] at hw
    refine ⟨?_, ?_⟩
    · intro qw aw hsome
      rw [hw] at hsome
      unfold mkWrite at hsome
      by_cases hlen :
          20 < (String.join (respGenGo q "" events).fragments).length
      · rw [if_pos hlen] at hsome
        obtain ⟨hq, ha⟩ :
            q = qw ∧ String.join (respGenGo q "" events).fragments = aw := by
          simpa using hsome
        exact ⟨hr, hq.symm, ha.symm, ha ▸ hlen⟩
      · rw [if_neg hlen] at hsome
        exact Option.noConfusion hsome
    · intro _ hlen
      have hnone : (respGenGo q "" events).cacheWrite = none := by
        rw [hw]
        unfold mkWrite
        rw [if_neg (by omega)]
      refine ⟨hnone, ?_⟩
      unfold applyCacheWrite
      rw [hnone]

/-- C8 witness: a completed two-fragment stream whose final answer has 9
    characters writes nothing, so an empty store stays empty. -/
theorem C8_cache_write_policy_witness :
    (response_generator sampleQ [LLMEvent.chunk shortText]).cacheWrite = none ∧
    applyCacheWrite idHash [] (response_generator sampleQ [LLMEvent.chunk shortText]) = [] :=
  (C8_cache_write_policy idHash sampleQ [LLMEvent.chunk shortText] []).2 rfl
    (by decide)

-- ### C9

/-- C9: cache-key derivation is invariant under the normalization performed
    by _get_cache_key itself (strip surrounding whitespace, lowercase): two
    question strings with the same normalized text produce the same cache key
    for every (deterministic) hash function; determinism for identical input
    is inherent, the derivation being a pure function of the text. -/
theorem C9_cache_key_normalization (h : String → String) (t1 t2 : String)
    (hnorm : normalizeQuestion t1 = normalizeQuestion t2) :
    _get_cache_key h t1 = _get_cache_key h t2 := by
  unfold _get_cache_key
  rw [hnorm]

/-- C9 witness: the spec's concrete example pair. -/
theorem C9_cache_key_normalization_witness :
    _get_cache_key idHash questionA = _get_cache_key idHash questionB :=
  C9_cache_key_normalization idHash questionA questionB (by decide)

-- ### C2

/-- C2: evaluation of the code at the failing input. A Word document (isPdf =
    false) whose single extracted passage is 64 characters long is stored
    with page_number = 2: the docx branch first sets the metadata page to 1
    and the chunk loop then unconditionally adds 1 (rag.py lines 130-132 and
    155-158), while the claim (and the code's own comments) say page 1.
    The pdf half of the claim does hold: a chunk from 0-based page p is
    stored with page_number = p + 1 (second conjunct, p = 4). -/
theorem C2_page_number_evaluation :
    (process_document false (Except.ok [{ page_content := longText, page := 0 }])
        (fun l => Except.ok l) (fun _ => Except.ok []) 7).map
      (fun c => c.page_number) = [2] ∧
    (process_document true (Except.ok [{ page_content := longText, page := 4 }])
        (fun l => Except.ok l) (fun _ => Except.ok []) 7).map
      (fun c => c.page_number) = [5] := by
  decide

-- ### C3 counterexample

/-- C3: counterexample. With a split producing one sub-50-character chunk
    followed by one long chunk, the single stored chunk has chunk_index = 1
    (its position in the full enumerate), while the claim requires the kept
    chunks to be indexed 0, 1, 2, ... (a single kept chunk would have index
    0, i.e. the indices would be List.range 1 = [0]). -/
theorem C3_counterexample :
    (process_document true (Except.ok [{ page_content := longText, page := 0 }])
        (fun _ => Except.ok [{ page_content := shortText, page := 0 },
                             { page_content := longText, page := 0 }])
        (fun _ => Except.ok []) 1).map (fun c => c.chunk_index) = [1] ∧
    ([1] : List Nat) ≠ List.range 1 := by
  decide

-- ### helper lemmas: the redis store

theorem find?_map_overwrite (k v : String) :
    ∀ (st : List (String × String)), st.any (fun p => p.1 == k) = true →
      (st.map (fun p => if p.1 == k then (k, v) else p)).find?
        (fun p => p.1 == k) = some (k, v) := by
  intro st
  induction st with
  | nil => intro hany; exact Bool.noConfusion hany
  | cons p t ih =>
    intro hany
    by_cases hpk : p.1 == k
    · simp only [List.map_cons, if_pos hpk]
      rw [List.find?_cons_of_pos (p := fun q : String × String => q.1 == k) _ (by simp)]
    · simp only [List.any_cons, hpk, Bool.false_or] at hany
      simp only [List.map_cons, if_neg hpk]
      rw [List.find?_cons_of_neg (p := fun q : String × String => q.1 == k) (a := p) _ hpk]
      exact ih hany

theorem cacheGet_cacheSet_self (st : List (String × String)) (k v : String) :
    cacheGet (cacheSet st k v) k = some v := by
  unfold cacheSet cacheGet
  by_cases hany : st.any (fun p => p.1 == k) = true
  · rw [if_pos hany, find?_map_overwrite k v st hany]
    rfl
  · rw [if_neg hany]
    rw [List.find?_cons_of_pos (p := fun q : String × String => q.1 == k) _ (by simp)]
    rfl

-- ### C4

/-- C4: after a successful delete_document for a document id, no chunk owned
    by that id remains in the chunk store (the cascade delete removes them
    all en masse). -/
theorem C4_cascade_delete (st : StoreState) (docId : Nat) (st' : StoreState)
    (hdel : delete_document st docId = Except.ok st') :
    ∀ c ∈ st'.chunks, c.document_id ≠ docId := by
  intro c hc
  unfold delete_document at hdel
  by_cases hmem : st.documents.contains docId
  · rw [if_pos hmem] at hdel
    injection hdel with hst
    rw [← hst] at hc
    simp only [cascadeDeleteChunks, List.mem_filter] at hc
    simpa using hc.2
  · rw [if_neg hmem] at hdel
    exact Except.noConfusion hdel

/-- A chunk of document 3, used by the C4 witness. -/
def chunkOfDoc3 : DocumentChunk :=
  { id := 10, document_id := 3, chunk_index := 0, content := longText,
    embedding := [], page_number := 1 }

/-- A chunk of document 4, used by the C4 witness. -/
def chunkOfDoc4 : DocumentChunk :=
  { id := 11, document_id := 4, chunk_index := 0, content := longText,
    embedding := [], page_number := 1 }

/-- C4 witness: deleting document 3 from a store holding documents 3 and 4
    succeeds and leaves only the chunk of document 4, whose owner is not the
    deleted document. -/
theorem C4_cascade_delete_witness :
    delete_document (StoreState.mk [3, 4] [chunkOfDoc3, chunkOfDoc4]) 3 =
      Except.ok (StoreState.mk [4] [chunkOfDoc4]) ∧
    chunkOfDoc4.document_id ≠ 3 :=
  ⟨rfl, C4_cascade_delete (StoreState.mk [3, 4] [chunkOfDoc3, chunkOfDoc4]) 3
      (StoreState.mk [4] [chunkOfDoc4]) rfl chunkOfDoc4 (by simp)⟩

-- ### helper lemmas: strip idempotence

theorem dropWhile_of_stripped {p : Char → Bool} (x : List Char)
    (hx : List.dropWhile p x = x) :
    List.dropWhile p (List.rdropWhile p x) = List.rdropWhile p x := by
  rcases heq : List.rdropWhile p x with _ | ⟨a, ys⟩
  · rfl
  · obtain ⟨t, ht⟩ := List.rdropWhile_prefix p x
    rw [heq] at ht
    have hxc : x = a :: (ys ++ t) := by rw [← ht]; rfl
    have hpa : ¬ p a = true := by
      intro hpa
      rw [hxc, List.dropWhile_cons, if_pos hpa] at hx
      have hle := (List.dropWhile_sublist (l := ys ++ t) (p := p)).length_le
      rw [hx] at hle
      simp at hle
    rw [List.dropWhile_cons, if_neg hpa]

theorem pyStrip_idem (s : String) : pyStrip (pyStrip s) = pyStrip s := by
  show String.mk (List.rdropWhile Char.isWhitespace
      (List.dropWhile Char.isWhitespace
        (List.rdropWhile Char.isWhitespace
          (List.dropWhile Char.isWhitespace s.data)))) = _
  rw [dropWhile_of_stripped _ (List.dropWhile_idempotent _ _),
      List.rdropWhile_idempotent]
  rfl

theorem normalizeQuestion_pyStrip (s : String) :
    normalizeQuestion (pyStrip s) = normalizeQuestion s := by
  unfold normalizeQuestion
  rw [pyStrip_idem]

-- ### helper lemmas: the indexing loop

theorem buildChunks_embed_error (embed : String → Except Unit (List ℚ))
    (docId : Nat) :
    ∀ (cs : List RawDoc) (i : Nat) (c : RawDoc), c ∈ cs →
      ¬((cleanText c.page_content).length < 50) →
      embed (cleanText c.page_content) = Except.error () →
      buildChunks embed docId i cs = Except.error () := by
  intro cs
  induction cs with
  | nil =>
    intro i c hc
    exact absurd hc (List.not_mem_nil c)
  | cons d rest ih =>
    intro i c hc hlen herr
    rcases List.mem_cons.mp hc with rfl | hmem
    · simp only [buildChunks]
      rw [if_neg hlen, herr]
    · by_cases hd : (cleanText d.page_content).length < 50
      · simp only [buildChunks]
        rw [if_pos hd]
        exact ih (i + 1) c hmem hlen herr
      · simp only [buildChunks]
        rw [if_neg hd]
        cases hembed : embed (cleanText d.page_content) with
        | error e => rfl
        | ok v => rw [ih (i + 1) c hmem hlen herr]

-- ### C5

/-- C5: indexing a document is all-or-nothing and never raises. First
    conjunct: which rows a run commits is either nothing or the complete
    successful batch of its body (so "some but not all chunks written"
    cannot occur, and the total function process_document models the
    exception-swallowing try/except). Remaining conjuncts: a loader failure,
    a splitter failure, or a failure of any single kept chunk's embedding
    each make the run write zero chunks. -/
theorem C5_all_or_nothing (isPdf : Bool) (loadResult : Except Unit (List RawDoc))
    (split : List RawDoc → Except Unit (List RawDoc))
    (embed : String → Except Unit (List ℚ)) (docId : Nat) :
    (process_document isPdf loadResult split embed docId = [] ∨
      processDocumentBody isPdf loadResult split embed docId =
        Except.ok (process_document isPdf loadResult split embed docId)) ∧
    (loadResult = Except.error () →
      process_document isPdf loadResult split embed docId = []) ∧
    (∀ raw, loadResult = Except.ok raw →
      split (adjustPages isPdf raw) = Except.error () →
      process_document isPdf loadResult split embed docId = []) ∧
    (∀ raw chunks c, loadResult = Except.ok raw →
      split (adjustPages isPdf raw) = Except.ok chunks → c ∈ chunks →
      ¬((cleanText c.page_content).length < 50) →
      embed (cleanText c.page_content) = Except.error () →
      process_document isPdf loadResult split embed docId = []) := by
  refine ⟨?_, ?_, ?_, ?_⟩
  · cases hbody : processDocumentBody isPdf loadResult split embed docId with
    | ok l => right; simp only [process_document, hbody]
    | error e => left; simp only [process_document, hbody]
  · intro hload
    simp only [process_document, processDocumentBody, hload]
  · intro raw hload hsplit
    by_cases hempty : (adjustPages isPdf raw).isEmpty
    · simp only [process_document, processDocumentBody, hload, hempty, if_true]
    · simp only [process_document, processDocumentBody, hload, hempty,
        if_false, hsplit]
      rfl
  · intro raw chunks c hload hsplit hmem hlen herr
    by_cases hempty : (adjustPages isPdf raw).isEmpty
    · simp only [process_document, processDocumentBody, hload, hempty, if_true]
    · simp only [process_document, processDocumentBody, hload, hempty,
        if_false, hsplit,
        buildChunks_embed_error embed docId chunks 0 c hmem hlen herr]
      rfl

/-- A one-document load result used by concrete instantiations. -/
def seedDoc : RawDoc := { page_content := "seed", page := 0 }

/-- The short split chunk of the concrete instantiations. -/
def shortDoc : RawDoc := { page_content := shortText, page := 0 }

/-- The long split chunk of the concrete instantiations. -/
def longDoc : RawDoc := { page_content := longText, page := 0 }

/-- C5 witness: a run whose only (64-character, kept) chunk fails to embed
    commits zero chunks. -/
theorem C5_all_or_nothing_witness :
    process_document true (Except.ok [seedDoc]) (fun _ => Except.ok [longDoc])
      (fun _ => Except.error ()) 1 = [] :=
  (C5_all_or_nothing true (Except.ok [seedDoc]) (fun _ => Except.ok [longDoc])
      (fun _ => Except.error ()) 1).2.2.2 [seedDoc] [longDoc] longDoc rfl rfl
    (by decide) (by decide) rfl

theorem buildChunks_total (embed : String → Except Unit (List ℚ))
    (docId : Nat) (htot : ∀ s, ∃ v, embed s = Except.ok v) :
    ∀ (cs : List RawDoc) (i : Nat),
      ∃ l, buildChunks embed docId i cs = Except.ok l ∧
        l.map (fun c => c.chunk_index) =
          ((List.enumFrom i cs).filter
            (fun p => !decide ((cleanText p.2.page_content).length < 50))).map
            Prod.fst := by
  intro cs
  induction cs with
  | nil => intro i; exact ⟨[], rfl, rfl⟩
  | cons d rest ih =>
    intro i
    obtain ⟨l, hbl, hmap⟩ := ih (i + 1)
    by_cases hd : (cleanText d.page_content).length < 50
    · refine ⟨l, ?_, ?_⟩
      · simp only [buildChunks]
        rw [if_pos hd]
        exact hbl
      · rw [hmap]
        simp [List.enumFrom, List.filter_cons, hd]
    · obtain ⟨v, hv⟩ := htot (cleanText d.page_content)
      refine ⟨{ id := 0, document_id := docId, chunk_index := i,
                content := cleanText d.page_content, embedding := v,
                page_number := d.page + 1 } :: l, ?_, ?_⟩
      · simp only [buildChunks]
        rw [if_neg hd, hv, hbl]
      · simp [List.map_cons, hmap, List.enumFrom, List.filter_cons, hd]

-- ### C3 (amended)

/-- C3 (amended): in a fully successful indexing run, each stored chunk's
    chunk_index equals its 0-based position among ALL chunks produced by the
    splitter (kept and discarded alike, Python enumerate), so the indices are
    strictly increasing and unique within the run, but not necessarily
    contiguous: gaps occur exactly where sub-50-character chunks were
    discarded. -/
theorem C3_chunk_index_enumerate (isPdf : Bool) (raw : List RawDoc)
    (split : List RawDoc → Except Unit (List RawDoc))
    (embed : String → Except Unit (List ℚ)) (docId : Nat)
    (chunks : List RawDoc)
    (htot : ∀ s, ∃ v, embed s = Except.ok v)
    (hne : (adjustPages isPdf raw).isEmpty = false)
    (hsplit : split (adjustPages isPdf raw) = Except.ok chunks) :
    (process_document isPdf (Except.ok raw) split embed docId).map
        (fun c => c.chunk_index) =
      ((List.enumFrom 0 chunks).filter
        (fun p => !decide ((cleanText p.2.page_content).length < 50))).map
        Prod.fst ∧
    ((process_document isPdf (Except.ok raw) split embed docId).map
        (fun c => c.chunk_index)).Pairwise (· < ·) := by
  obtain ⟨l, hbl, hmap⟩ := buildChunks_total embed docId htot chunks 0
  have hpd : process_document isPdf (Except.ok raw) split embed docId = l := by
    simp only [process_document, processDocumentBody, hne, if_false, hsplit,
      hbl]
    rfl
  rw [hpd, hmap]
  refine ⟨rfl, ?_⟩
  have hsub := (List.filter_sublist (p := fun p : Nat × RawDoc =>
      !decide ((cleanText p.2.page_content).length < 50))
    (List.enumFrom 0 chunks)).map Prod.fst
  rw [List.enumFrom_map_fst] at hsub
  exact List.Pairwise.sublist hsub (List.pairwise_lt_range' 0 chunks.length)

/-- C3 witness: the amended statement at a concrete run in which the
    splitter yields one discarded and one kept chunk; the stored index list
    is [1] and is strictly increasing. -/
theorem C3_chunk_index_enumerate_witness :
    (process_document true (Except.ok [seedDoc])
        (fun _ => Except.ok [shortDoc, longDoc])
        (fun _ => Except.ok []) 1).map (fun c => c.chunk_index) =
      ((List.enumFrom 0 [shortDoc, longDoc]).filter
        (fun p => !decide ((cleanText p.2.page_content).length < 50))).map
        Prod.fst ∧
    ((process_document true (Except.ok [seedDoc])
        (fun _ => Except.ok [shortDoc, longDoc])
        (fun _ => Except.ok []) 1).map (fun c => c.chunk_index)).Pairwise
      (· < ·) :=
  C3_chunk_index_enumerate true [seedDoc] (fun _ => Except.ok [shortDoc, longDoc])
    (fun _ => Except.ok []) 1 [shortDoc, longDoc] (fun s => ⟨[], rfl⟩)
    (by decide) rfl

-- ### helper lemmas: the reranker

theorem rerankScoredKept_pairwise (predict : String → String → ℚ)
    (query : String) (chunks : List DocumentChunk) (top_k : Nat) :
    (rerankScoredKept predict query chunks top_k).Pairwise
      (fun a b => b.2 ≤ a.2) := by
  have hsorted := @List.sorted_mergeSort (DocumentChunk × ℚ)
    (fun a b => decide (b.2 ≤ a.2))
    (fun a b c hab hbc => by
      simp only [decide_eq_true_eq] at hab hbc ⊢
      exact le_trans hbc hab)
    (fun a b => by
      rcases le_total b.2 a.2 with hc | hc
      · simp [hc]
      · simp [hc])
    (chunks.zip (chunks.map (fun c => predict query c.content)))
  have hfil := List.Pairwise.sublist (List.filter_sublist
    (p := fun p : DocumentChunk × ℚ => decide (-8 < p.2)) _) hsorted
  have htake := List.Pairwise.sublist (List.take_sublist top_k _) hfil
  exact htake.imp (fun hab => of_decide_eq_true hab)

-- ### C6

/-- C6: for the empty candidate list, rerank returns the empty list without
    invoking the cross-encoder (flag false); for any non-empty candidate
    list it invokes the model (flag true) and returns the chunks of the
    scored-sorted-filtered-truncated list: at most top_k of them, in
    descending score order, every survivor scoring strictly above the fixed
    floor of -8. -/
theorem C6_rerank_contract (predict : String → String → ℚ) (query : String)
    (top_k : Nat) (chunks : List DocumentChunk) (hne : chunks ≠ []) :
    rerank_results predict query [] top_k = ([], false) ∧
    rerank_results predict query chunks top_k =
      ((rerankScoredKept predict query chunks top_k).map Prod.fst, true) ∧
    (rerank_results predict query chunks top_k).1.length ≤ top_k ∧
    (rerankScoredKept predict query chunks top_k).Pairwise
      (fun a b => b.2 ≤ a.2) ∧
    (∀ p ∈ rerankScoredKept predict query chunks top_k, (-8 : ℚ) < p.2) := by
  have hre : rerank_results predict query chunks top_k =
      ((rerankScoredKept predict query chunks top_k).map Prod.fst, true) := by
    unfold rerank_results
    rw [if_neg (by simp [hne])]
  refine ⟨rfl, hre, ?_, rerankScoredKept_pairwise predict query chunks top_k, ?_⟩
  · rw [hre]
    show ((rerankScoredKept predict query chunks top_k).map Prod.fst).length ≤ top_k
    rw [List.length_map]
    exact List.length_take_le top_k _
  · intro p hp
    have hmem := List.mem_of_mem_take hp
    exact of_decide_eq_true (List.mem_filter.mp hmem).2

/-- A concrete candidate chunk for the C6 witness. -/
def sampleChunk : DocumentChunk :=
  { id := 1, document_id := 1, chunk_index := 0, content := longText,
    embedding := [], page_number := 1 }

/-- C6 witness: the contract instantiated at the singleton candidate list. -/
theorem C6_rerank_contract_witness :
    rerank_results zeroPredict sampleQ [] 5 = ([], false) ∧
    rerank_results zeroPredict sampleQ [sampleChunk] 5 =
      ((rerankScoredKept zeroPredict sampleQ [sampleChunk] 5).map Prod.fst,
        true) ∧
    (rerank_results zeroPredict sampleQ [sampleChunk] 5).1.length ≤ 5 ∧
    (rerankScoredKept zeroPredict sampleQ [sampleChunk] 5).Pairwise
      (fun a b => b.2 ≤ a.2) ∧
    (∀ p ∈ rerankScoredKept zeroPredict sampleQ [sampleChunk] 5,
      (-8 : ℚ) < p.2) :=
  C6_rerank_contract zeroPredict sampleQ 5 [sampleChunk] (by simp)

-- ### helper lemmas: the ask endpoint

theorem ask_miss_goes_to_search (h : String → String)
    (predict : String → String → ℚ) (store : List (String × String))
    (userId : Nat) (rawQuestion : String)
    (vectorResults keywordResults : List DocumentChunk)
    (llmEvents : List LLMEvent)
    (hq : pyStrip rawQuestion ≠ "")
    (hmiss : pyTruthy (get_cached_answer h store (pyStrip rawQuestion)) = false) :
    ask_assistant_stream h predict store userId rawQuestion vectorResults
        keywordResults llmEvents =
      askSearchBranch h predict store (pyStrip rawQuestion) vectorResults
        keywordResults llmEvents := by
  rcases hcache : get_cached_answer h store (pyStrip rawQuestion) with _ | s
  · simp only [ask_assistant_stream, if_neg hq, hcache]
  · rw [hcache] at hmiss
    simp only [pyTruthy] at hmiss
    simp at hmiss
    simp only [ask_assistant_stream, if_neg hq, hcache]
    rw [if_pos (by simp [hmiss])]

-- ### C7

/-- C7: when the question is not served from the cache and hybrid retrieval
    (vector plus keyword channels, after dedup and reranking) yields zero
    surviving candidates, the endpoint streams exactly the fixed "no
    information found" message, the generation stage never runs, and the
    cache is left untouched. -/
theorem C7_no_context_short_circuit (h : String → String)
    (predict : String → String → ℚ) (store : List (String × String))
    (userId : Nat) (rawQuestion : String)
    (vectorResults keywordResults : List DocumentChunk)
    (llmEvents : List LLMEvent)
    (hq : pyStrip rawQuestion ≠ "")
    (hmiss : pyTruthy (get_cached_answer h store (pyStrip rawQuestion)) = false)
    (hzero : (search_related_chunks predict (pyStrip rawQuestion) vectorResults
        keywordResults 5).1 = []) :
    (ask_assistant_stream h predict store userId rawQuestion vectorResults
        keywordResults llmEvents).1 =
      { status := 200, fragments := [noInfoMessage], raised := false,
        retrievalInvoked := true,
        rerankInvoked := (search_related_chunks predict (pyStrip rawQuestion)
          vectorResults keywordResults 5).2,
        generationInvoked := false } ∧
    (ask_assistant_stream h predict store userId rawQuestion vectorResults
        keywordResults llmEvents).2 = store := by
  rw [ask_miss_goes_to_search h predict store userId rawQuestion vectorResults
    keywordResults llmEvents hq hmiss]
  simp [askSearchBranch, hzero]

/-- C7 witness: a fresh store and empty retrieval channels produce the fixed
    message and leave the generator uninvoked. -/
theorem C7_no_context_short_circuit_witness :
    (ask_assistant_stream idHash zeroPredict [] 1 questionA [] [] []).1 =
      { status := 200, fragments := [noInfoMessage], raised := false,
        retrievalInvoked := true,
        rerankInvoked := (search_related_chunks zeroPredict (pyStrip questionA)
          [] [] 5).2,
        generationInvoked := false } ∧
    (ask_assistant_stream idHash zeroPredict [] 1 questionA [] [] []).2 = [] :=
  C7_no_context_short_circuit idHash zeroPredict [] 1 questionA [] [] []
    (by decide) (by decide) (by decide)

-- ### C10

/-- C10: the answer cache is keyed only by the normalized question text (no
    user or conversation component). After a first user's query completes
    with a cacheable (over-20-character) answer, any second user asking a
    question with the same normalized text receives exactly that answer as
    the entire response, and neither retrieval, nor reranking, nor
    generation runs for the second query (its own retrieval inputs and LLM
    events are irrelevant). -/
theorem C10_cache_shared_across_users (h : String → String)
    (predict : String → String → ℚ) (store0 : List (String × String))
    (u1 u2 : Nat) (q1 q2 : String) (v1 k1 v2 k2 : List DocumentChunk)
    (frags : List String) (llm2 : List LLMEvent)
    (hq1 : pyStrip q1 ≠ "")
    (hmiss : pyTruthy (get_cached_answer h store0 (pyStrip q1)) = false)
    (hfound : ((search_related_chunks predict (pyStrip q1) v1 k1 5).1).isEmpty
      = false)
    (hlong : 20 < (String.join frags).length)
    (hq2 : pyStrip q2 ≠ "")
    (hnorm : normalizeQuestion q1 = normalizeQuestion q2) :
    (ask_assistant_stream h predict
        (ask_assistant_stream h predict store0 u1 q1 v1 k1
          (frags.map LLMEvent.chunk)).2
        u2 q2 v2 k2 llm2).1 =
      { status := 200, fragments := [String.join frags], raised := false,
        retrievalInvoked := false, rerankInvoked := false,
        generationInvoked := false } := by
  have hgen : response_generator (pyStrip q1) (frags.map LLMEvent.chunk) =
      { fragments := frags, raised := false,
        cacheWrite := some (pyStrip q1, String.join frags) } := by
    have hok := respGenGo_ok (pyStrip q1) frags ""
    rw [String.empty_append] at hok
    show respGenGo (pyStrip q1) "" (frags.map LLMEvent.chunk) = _
    rw [hok]
    unfold mkWrite
    rw [if_pos hlong]
  have hstore1 : (ask_assistant_stream h predict store0 u1 q1 v1 k1
      (frags.map LLMEvent.chunk)).2 =
      set_cached_answer h store0 (pyStrip q1) (String.join frags) := by
    rw [ask_miss_goes_to_search h predict store0 u1 q1 v1 k1
      (frags.map LLMEvent.chunk) hq1 hmiss]
    simp only [askSearchBranch, hfound, if_false, hgen]
    rfl
  have hkey : _get_cache_key h (pyStrip q2) = _get_cache_key h (pyStrip q1) := by
    unfold _get_cache_key
    rw [normalizeQuestion_pyStrip, normalizeQuestion_pyStrip, hnorm]
  have hget : get_cached_answer h
      ((ask_assistant_stream h predict store0 u1 q1 v1 k1
        (frags.map LLMEvent.chunk)).2) (pyStrip q2) = some (String.join frags) := by
    rw [hstore1]
    unfold get_cached_answer set_cached_answer
    rw [hkey]
    exact cacheGet_cacheSet_self store0 (_get_cache_key h (pyStrip q1))
      (String.join frags)
  have hdata : (String.join frags).data.isEmpty = false := by
    rcases hd : (String.join frags).data with _ | ⟨c, cs⟩
    · exfalso
      have hzero : (String.join frags).length = 0 := by
        rw [show (String.join frags).length = (String.join frags).data.length
          from rfl, hd]
        rfl
      omega
    · rfl
  set store1 := (ask_assistant_stream h predict store0 u1 q1 v1 k1
    (frags.map LLMEvent.chunk)).2 with hs1
  simp only [ask_assistant_stream, if_neg hq2, hget]
  rw [if_neg (fun hx => Bool.noConfusion (hdata ▸ hx))]

theorem search_singleton_eval :
    search_related_chunks zeroPredict (pyStrip questionA) [sampleChunk] [] 5 =
      ([sampleChunk], true) := by
  show (if ([sampleChunk] : List DocumentChunk).isEmpty then ([], false)
    else rerank_results zeroPredict (pyStrip questionA) [sampleChunk] 5) = _
  rw [if_neg (by simp)]
  unfold rerank_results
  rw [if_neg (by simp)]
  unfold rerankScoredKept
  rw [show ([sampleChunk].zip ([sampleChunk].map
      (fun c => zeroPredict (pyStrip questionA) c.content))) =
    [(sampleChunk, 0)] from rfl]
  rw [List.mergeSort_singleton]
  rfl

/-- C10 witness: user 1 asks the spec's example question and gets a
    64-character generated answer; user 2 asks the same question in
    different casing with extra whitespace, different retrieval inputs and a
    failing LLM, and still receives user 1's cached answer unchanged with no
    pipeline stage invoked. -/
theorem C10_cache_shared_across_users_witness :
    (ask_assistant_stream idHash zeroPredict
        (ask_assistant_stream idHash zeroPredict [] 1 questionA [sampleChunk]
          [] ([longText].map LLMEvent.chunk)).2
        2 questionB [] [] [LLMEvent.connError]).1 =
      { status := 200, fragments := [String.join [longText]], raised := false,
        retrievalInvoked := false, rerankInvoked := false,
        generationInvoked := false } :=
  C10_cache_shared_across_users idHash zeroPredict [] 1 2 questionA questionB
    [sampleChunk] [] [] [] [longText] [LLMEvent.connError]
    (by decide) (by decide) (by rw [search_singleton_eval]; decide) (by decide)
    (by decide) (by decide)
